import Mathlib

/-!
# Acquisitions API: authentication gate and user service

A shallow embedding of

* `src/utils/cookies.js` (`cookies.get`),
* `src/middleware/auth.middleware.js` (`authMiddleware`),
* `src/services/users.service.js` (`getUserById`, `updateUser`, `deleteUser`),

followed by the properties of these functions.

Conventions of the embedding:

* a JavaScript object is an association list from property names to values,
  read with first-match lookup; a missing property reads as `undefined`;
* the cookie container `req.cookies` is read like any object: its own entries
  first, then the members of its prototype, so that a name such as
  `constructor` on a plain object reads as the inherited member;
* a thrown exception is the `error` case of `Except JsError`;
* side effects (responses written, calls of `next`, calls of the token
  verifier, log lines, the assignment to `req.user`, the contents of the
  store) are recorded in an explicit state that the functions return.
-/

set_option autoImplicit false

namespace Acquisitions

/-! ## JavaScript values and objects -/

/-- Primitive JavaScript values that occur as claim values, update values and
column values. -/
inductive JsVal where
  | undefined
  | null
  | bool (b : Bool)
  | num (n : Int)
  | str (s : String)
  deriving DecidableEq, Repr

/-- A JavaScript object with primitive property values. -/
abbrev Obj := List (String × JsVal)

/-- Property read `o.k` / `o[k]`: the value of the first entry named `k`, and
`undefined` when there is none. -/
def Obj.get : Obj → String → JsVal
  | [], _ => JsVal.undefined
  | (k, v) :: rest, key => if k = key then v else Obj.get rest key

/-- Property write `o.k = v`: overwrite the entry named `k`, or append one. -/
def Obj.set : Obj → String → JsVal → Obj
  | [], key, v => [(key, v)]
  | (k, w) :: rest, key, v =>
    if k = key then (k, v) :: rest else (k, w) :: Obj.set rest key v

/-- The property names of an object, in order. -/
def Obj.keys (o : Obj) : List String := o.map Prod.fst

/-- A thrown JavaScript exception. -/
structure JsError where
  name : String
  message : String
  deriving DecidableEq, Repr

/-- The exception raised by reading a property of `undefined`. -/
def typeErrorUndefined : JsError :=
  ⟨"TypeError", "Cannot read properties of undefined"⟩

/-- `s.startsWith(p)`; the prefixes used here are ASCII, so code units and
code points agree on them. -/
def jsStartsWith (s p : String) : Bool := p.data.isPrefixOf s.data

/-- `s.substring(n)`: the text from position `n` on. -/
def jsSubstring (s : String) (n : Nat) : String := ⟨s.data.drop n⟩

/-- Truthiness of a value that is `undefined` or a string. -/
def truthy : Option String → Bool
  | none => false
  | some s => decide (s ≠ "")

/-- The operator `a || b` on values that are `undefined` or strings. -/
def jsOr (a b : Option String) : Option String :=
  if truthy a then a else b

/-! ## Requests and the cookie accessor (`src/utils/cookies.js`) -/

/-- The prototype of the cookie container: `Object.prototype` when the
container is a plain object (`{}`), none when it was made by
`Object.create(null)`. -/
inductive Prototype where
  | objectPrototype
  | null
  deriving DecidableEq, Repr

/-- The string-named properties of `Object.prototype`. -/
def objectPrototypeKeys : List String :=
  ["constructor", "__defineGetter__", "__defineSetter__", "hasOwnProperty",
   "__lookupGetter__", "__lookupSetter__", "isPrototypeOf", "propertyIsEnumerable",
   "toString", "valueOf", "__proto__", "toLocaleString"]

/-- The property names an object finds along its prototype chain. -/
def Prototype.keys : Prototype → List String
  | Prototype.objectPrototype => objectPrototypeKeys
  | Prototype.null => []

/-- The cookie container `req.cookies`: its own entries, cookie name and cookie
value, and its prototype. -/
structure CookieJar where
  own : List (String × String)
  proto : Prototype
  deriving DecidableEq, Repr

/-- What a property read on the cookie container yields, and so what the
variable `token` of the gate holds: `undefined`, a string, or the member of
`Object.prototype` of the given name (a function or an object). -/
inductive CookieValue where
  | undefined
  | str (s : String)
  | inherited (name : String)
  deriving DecidableEq, Repr

/-- Truthiness: `undefined` and `''` are falsy, functions and objects are
truthy. -/
def CookieValue.truthy : CookieValue → Bool
  | CookieValue.undefined => false
  | CookieValue.str s => decide (s ≠ "")
  | CookieValue.inherited _ => true

/-- The parts of an incoming request that the gate reads.

* `cookies` is `req.cookies`: `none` when the property is `undefined` (no
  cookie parser has populated it), otherwise the cookie container;
* `getAuthorization` is the result of `req.get('Authorization')`;
* `headersAuthorization` is `req.headers.authorization`. -/
structure Request where
  cookies : Option CookieJar
  getAuthorization : Option String
  headersAuthorization : Option String
  deriving DecidableEq, Repr

/-- The value of the first own entry named `name`, when there is one. -/
def ownCookie : List (String × String) → String → Option String
  | [], _ => none
  | (k, v) :: rest, name => if k = name then some v else ownCookie rest name

/-- Property read `jar[name]`: the own entry named `name`; without one, the
member of that name found along the prototype chain; without one, `undefined`. -/
def CookieJar.read (jar : CookieJar) (name : String) : CookieValue :=
  match ownCookie jar.own name with
  | some v => CookieValue.str v
  | none =>
    if name ∈ jar.proto.keys then CookieValue.inherited name else CookieValue.undefined

/-- The function `cookies.get`: `(req, name) => req.cookies[name]`.  Indexing
`undefined` throws a `TypeError`. -/
def cookies.get (req : Request) (name : String) : Except JsError CookieValue :=
  match req.cookies with
  | none => Except.error typeErrorUndefined
  | some jar => Except.ok (jar.read name)

/-! ## The authentication gate (`src/middleware/auth.middleware.js`) -/

/-- A response written by `res.status(code).json(body)`. -/
structure Response where
  status : Nat
  body : Obj
  deriving DecidableEq, Repr

/-- A line handed to `logger.error`. -/
structure LogLine where
  message : String
  cause : JsError
  deriving DecidableEq, Repr

/-- Everything one run of the gate does to its surroundings. -/
structure GateState where
  /-- Value of `req.user`; `none` while it has not been assigned. -/
  user : Option Obj
  /-- Responses written through `res`, oldest first. -/
  responses : List Response
  /-- Number of times `next` was called. -/
  nextCalls : Nat
  /-- Arguments passed to `jwttoken.verify`, oldest first. -/
  verifyCalls : List CookieValue
  /-- Lines handed to `logger.error`, oldest first. -/
  logs : List LogLine
  deriving DecidableEq, Repr

/-- The surroundings before the gate runs. -/
def GateState.init : GateState := ⟨none, [], 0, [], []⟩

/-- The token verifier `jwttoken.verify` (module `#utils/jwt.js`), taken as a
parameter: applied to the value of `token`, it returns the decoded claims or
throws. -/
abbrev Verifier := CookieValue → Except JsError Obj

/-- Line 8: `req.get('Authorization') || req.headers.authorization`. -/
def Request.authHeader (req : Request) : Option String :=
  jsOr req.getAuthorization req.headersAuthorization

/-- Lines 7 to 14: the candidate token, or the exception of `cookies.get`. -/
def findToken (req : Request) : Except JsError CookieValue :=
  match cookies.get req "token" with
  | Except.error e => Except.error e
  | Except.ok cookieToken =>
    let authHeader := req.authHeader
    let token := cookieToken
    if !token.truthy && truthy authHeader && jsStartsWith (authHeader.getD "") "Bearer " then
      Except.ok (CookieValue.str (jsSubstring (authHeader.getD "") 7))
    else Except.ok token

/-- The `try` block of `authMiddleware` (lines 7 to 28): the state it leaves
behind, and whether it completed or threw.  `next` is the outcome of calling
the downstream stage. -/
def tryBlock (verify : Verifier) (next : Except JsError Unit) (req : Request) :
    GateState × Except JsError Unit :=
  match findToken req with
  | Except.error e => (GateState.init, Except.error e)
  | Except.ok token =>
    if !token.truthy then
      ({ GateState.init with
          responses := [⟨401, [("error", JsVal.str "Authentication required")]⟩] },
        Except.ok ())
    else
      let s1 := { GateState.init with verifyCalls := [token] }
      match verify token with
      | Except.error e => (s1, Except.error e)
      | Except.ok payload =>
        let s2 := { s1 with
          user := some [("id", payload.get "id"), ("email", payload.get "email"),
                        ("role", payload.get "role")] }
        let s3 := { s2 with nextCalls := s2.nextCalls + 1 }
        match next with
        | Except.error e => (s3, Except.error e)
        | Except.ok () => (s3, Except.ok ())

/-- The function `authMiddleware`: the `try` block, and on an exception the
`catch` block (lines 29 to 32), which logs it and writes the 401 response. -/
def authMiddleware (verify : Verifier) (next : Except JsError Unit) (req : Request) :
    GateState :=
  match tryBlock verify next req with
  | (s, Except.ok _) => s
  | (s, Except.error e) =>
    { s with
      logs := s.logs ++ [⟨"Authentication middleware error", e⟩]
      responses := s.responses ++ [⟨401, [("error", JsVal.str "Invalid or expired token")]⟩] }

/-! ## The user service (`src/services/users.service.js`)

The persistence engine is outside the service.  It is modelled as an in-memory
table of rows, each row an object from column names to values, with the three
statements the service issues: select, update and delete by `id`, the last two
returning the affected rows.  The statements of this model do not fail, so the
`catch` blocks of the service are entered only through its own `throw`. -/

/-- The `users` table: its rows, in storage order. -/
abbrev Table := List Obj

/-- The condition `eq(users.id, id)` on a row. -/
def matchesId (id : Int) (row : Obj) : Bool := decide (row.get "id" = JsVal.num id)

/-- The columns named by `userSelection` (lines 6 to 13). -/
def userSelectionKeys : List String :=
  ["id", "email", "name", "role", "created_at", "updated_at"]

/-- A row projected to `userSelection`. -/
def userSelection (row : Obj) : Obj :=
  userSelectionKeys.map fun k => (k, row.get k)

/-- Statement `select().from(users).where(eq(users.id, id))`. -/
def Table.selectWhereId (db : Table) (id : Int) : List Obj :=
  db.filter (matchesId id)

/-- Assignment of every entry of a write set to a row (`SET k = v, ...`). -/
def applySet (row writes : Obj) : Obj :=
  writes.foldl (fun r kv => r.set kv.1 kv.2) row

/-- Statement `update(users).set(writes).where(eq(users.id, id))`: the table
afterwards and the rows it changed, as they are afterwards. -/
def Table.updateWhereId (db : Table) (id : Int) (writes : Obj) : Table × List Obj :=
  (db.map fun row => if matchesId id row then applySet row writes else row,
   (db.filter (matchesId id)).map fun row => applySet row writes)

/-- Statement `delete(users).where(eq(users.id, id))`: the table afterwards and
the rows it removed. -/
def Table.deleteWhereId (db : Table) (id : Int) : Table × List Obj :=
  (db.filter fun row => !matchesId id row, db.filter (matchesId id))

/-- A line handed to `logger.info` or `logger.error` by the service; the
message template and the `id` it interpolates are kept apart. -/
structure ServiceLog where
  level : String
  template : String
  id : Int
  cause : Option JsError
  deriving DecidableEq, Repr

/-- The outcome of a service call: the table and the log lines it leaves, and
the value it returns or the exception it throws. -/
structure ServiceRun (α : Type) where
  db : Table
  logs : List ServiceLog
  result : Except JsError α

/-- The exception `new Error('User not found')`. -/
def userNotFound : JsError := ⟨"Error", "User not found"⟩

/-- The function `getUserById` (lines 24 to 37); the returned `none` is
JavaScript `null`. -/
def getUserById (db : Table) (id : Int) : ServiceRun (Option Obj) :=
  let rows := ((db.selectWhereId id).map userSelection).take 1
  let user := rows.head?
  ⟨db, [], Except.ok user⟩

/-- The write set `allowedUpdates` of `updateUser` (lines 51 to 58); `now` is
the value of `new Date()`. -/
def allowedUpdates (updates : Obj) (now : JsVal) : Obj :=
  let a0 : Obj := []
  let a1 := if updates.get "name" ≠ JsVal.undefined then a0.set "name" (updates.get "name") else a0
  let a2 := if updates.get "email" ≠ JsVal.undefined then a1.set "email" (updates.get "email") else a1
  let a3 := if updates.get "role" ≠ JsVal.undefined then a2.set "role" (updates.get "role") else a2
  a3.set "updated_at" now

/-- The function `updateUser` (lines 39 to 72); a returned `none` is
JavaScript `undefined`. -/
def updateUser (now : JsVal) (db : Table) (id : Int) (updates : Obj) :
    ServiceRun (Option Obj) :=
  let existing := ((db.selectWhereId id).take 1).head?
  match existing with
  | none =>
    ⟨db, [⟨"error", "Error updating user with id ${id}:", id, some userNotFound⟩],
      Except.error userNotFound⟩
  | some _ =>
    let writes := allowedUpdates updates now
    let (db1, changed) := db.updateWhereId id writes
    let updatedUser := (changed.map userSelection).head?
    ⟨db1, [⟨"info", "User with id ${id} updated successfully", id, none⟩],
      Except.ok updatedUser⟩

/-- The function `deleteUser` (lines 74 to 91). -/
def deleteUser (db : Table) (id : Int) : ServiceRun Obj :=
  let (db1, removed) := db.deleteWhereId id
  let deletedUser := (removed.map userSelection).head?
  match deletedUser with
  | none =>
    ⟨db1, [⟨"error", "Error deleting user with id ${id}:", id, some userNotFound⟩],
      Except.error userNotFound⟩
  | some u =>
    ⟨db1, [⟨"info", "User with id ${id} deleted successfully", id, none⟩], Except.ok u⟩

/-! ## Vocabulary of the properties and sample inputs -/

/-- The body `{error: 'Authentication required'}`. -/
def authenticationRequired : Response :=
  ⟨401, [("error", JsVal.str "Authentication required")]⟩

/-- The body `{error: 'Invalid or expired token'}`. -/
def invalidOrExpired : Response :=
  ⟨401, [("error", JsVal.str "Invalid or expired token")]⟩

/-- The identity `{id, email, role}` read off a claims object. -/
def identityOf (claims : Obj) : Obj :=
  [("id", claims.get "id"), ("email", claims.get "email"), ("role", claims.get "role")]

/-- A request is said to carry a token cookie when its cookie container exists
and has an own entry named `token`. -/
def Request.hasTokenCookie (req : Request) : Bool :=
  match req.cookies with
  | none => false
  | some jar => (ownCookie jar.own "token").isSome

/-- A request is said to carry a Bearer header when its `Authorization` value
starts with `"Bearer "`. -/
def Request.hasBearerHeader (req : Request) : Bool :=
  match req.authHeader with
  | none => false
  | some h => jsStartsWith h "Bearer "

/-- Case-insensitive reading of the scheme check: the first seven characters
of the header value are `"Bearer "` up to letter case. -/
def schemeIsBearerIgnoringCase (h : String) : Bool :=
  (h.data.take 7).map Char.toLower == "Bearer ".data.map Char.toLower

/-- A verifier that accepts the token `"abc"` and rejects every other one. -/
def sampleVerifier : Verifier := fun t =>
  if t = CookieValue.str "abc" then
    Except.ok [("id", JsVal.num 1), ("email", JsVal.str "a@x.com"),
      ("role", JsVal.str "user"), ("iat", JsVal.num 1000), ("exp", JsVal.num 2000)]
  else Except.error ⟨"JsonWebTokenError", "invalid signature"⟩

/-- A verifier that rejects every token as expired. -/
def expiredVerifier : Verifier := fun _ =>
  Except.error ⟨"TokenExpiredError", "jwt expired"⟩

/-- A request without a cookie jar and without an `Authorization` header. -/
def reqNoJar : Request := ⟨none, none, none⟩

/-- An empty cookie container that is a plain object, `{}`. -/
def emptyJar : CookieJar := ⟨[], Prototype.objectPrototype⟩

/-- The cookie container `{session: 's1', token: 'abc'}`. -/
def sessionJar : CookieJar :=
  ⟨[("session", "s1"), ("token", "abc")], Prototype.objectPrototype⟩

/-- A request with an empty cookie jar and no `Authorization` header. -/
def reqAnonymous : Request := ⟨some emptyJar, none, none⟩

/-- A request with an empty cookie jar and the header `Bearer abc`. -/
def reqBearer : Request := ⟨some emptyJar, some "Bearer abc", some "Bearer abc"⟩

/-- A request with an empty cookie jar and the header `bearer abc`. -/
def reqLowerBearer : Request := ⟨some emptyJar, some "bearer abc", some "bearer abc"⟩

/-- A request with the cookie `token=abc` and the header `Bearer forged`. -/
def reqCookieAndHeader : Request :=
  ⟨some sessionJar, some "Bearer forged", some "Bearer forged"⟩

/-- A downstream stage that throws. -/
def nextThrows : Except JsError Unit := Except.error ⟨"Error", "handler failed"⟩

/-- The store invariant that `id` is a key: no two rows share an `id`. -/
def uniqueIds (db : Table) : Prop :=
  db.Pairwise fun a b => a.get "id" ≠ b.get "id"

/-- The stored row of user 1; it has a `password` column besides the public
ones. -/
def sampleRow : Obj :=
  [("id", JsVal.num 1), ("name", JsVal.str "Ann"), ("email", JsVal.str "ann@x.com"),
    ("password", JsVal.str "h1"), ("role", JsVal.str "user"),
    ("created_at", JsVal.num 10), ("updated_at", JsVal.num 10)]

/-- A table with the users 1 and 2. -/
def sampleDb : Table :=
  [sampleRow,
   [("id", JsVal.num 2), ("name", JsVal.str "Bob"), ("email", JsVal.str "bob@x.com"),
    ("password", JsVal.str "h2"), ("role", JsVal.str "admin"),
    ("created_at", JsVal.num 20), ("updated_at", JsVal.num 20)]]

/-- The payload `{name: "X", hacked: "Y"}`. -/
def samplePayload : Obj := [("name", JsVal.str "X"), ("hacked", JsVal.str "Y")]

/-! ## Properties of the cookie accessor and of the gate -/

theorem token_not_inherited (p : Prototype) : "token" ∉ p.keys := by
  cases p <;> decide

theorem read_token (jar : CookieJar) :
    jar.read "token" =
      match ownCookie jar.own "token" with
      | some v => CookieValue.str v
      | none => CookieValue.undefined := by
  unfold CookieJar.read
  cases ownCookie jar.own "token" with
  | some v => rfl
  | none => simp [token_not_inherited]

theorem findToken_of_jar (req : Request) (jar : CookieJar)
    (hjar : req.cookies = some jar) :
    findToken req =
      Except.ok (if !(jar.read "token").truthy && truthy req.authHeader
          && jsStartsWith (req.authHeader.getD "") "Bearer "
        then CookieValue.str (jsSubstring (req.authHeader.getD "") 7)
        else jar.read "token") := by
  simp only [findToken, cookies.get, hjar]
  split <;> rfl

theorem authMiddleware_no_token (verify : Verifier) (next : Except JsError Unit)
    (req : Request) (tok : CookieValue) (hfind : findToken req = Except.ok tok)
    (hfalsy : tok.truthy = false) :
    authMiddleware verify next req = ⟨none, [authenticationRequired], 0, [], []⟩ := by
  simp [authMiddleware, tryBlock, hfind, hfalsy, GateState.init, authenticationRequired]

theorem authMiddleware_verify_error (verify : Verifier) (next : Except JsError Unit)
    (req : Request) (tok : CookieValue) (e : JsError)
    (hfind : findToken req = Except.ok tok) (htr : tok.truthy = true)
    (hver : verify tok = Except.error e) :
    authMiddleware verify next req =
      ⟨none, [invalidOrExpired], 0, [tok], [⟨"Authentication middleware error", e⟩]⟩ := by
  simp [authMiddleware, tryBlock, hfind, htr, hver, GateState.init, invalidOrExpired]

theorem authMiddleware_verify_ok (verify : Verifier) (next : Except JsError Unit)
    (req : Request) (tok : CookieValue) (c : Obj)
    (hfind : findToken req = Except.ok tok) (htr : tok.truthy = true)
    (hver : verify tok = Except.ok c) :
    authMiddleware verify next req =
      match next with
      | Except.ok _ => ⟨some (identityOf c), [], 1, [tok], []⟩
      | Except.error e =>
        ⟨some (identityOf c), [invalidOrExpired], 1, [tok],
          [⟨"Authentication middleware error", e⟩]⟩ := by
  cases next <;>
    simp [authMiddleware, tryBlock, hfind, htr, hver, GateState.init,
      invalidOrExpired, identityOf]

/-- The candidate token is never an inherited member: it is `undefined` or a
string, since `token` is not a property of `Object.prototype`. -/
theorem findToken_not_inherited (req : Request) (n : String) :
    findToken req ≠ Except.ok (CookieValue.inherited n) := by
  cases hc : req.cookies with
  | none =>
    intro h
    simp [findToken, cookies.get, hc] at h
  | some jar =>
    rw [findToken_of_jar req jar hc, read_token]
    cases ownCookie jar.own "token" <;> (split <;> simp)

theorem str_truthy (t : String) (ht : t ≠ "") : (CookieValue.str t).truthy = true := by
  simp [CookieValue.truthy, ht]

/-- C8, as stated, fails twice over.  On a request whose cookie container
`req.cookies` is missing, `cookies.get` throws a `TypeError` instead of
returning `undefined`.  And on the empty plain-object container `{}`, where no
cookie is named `constructor`, `cookies.get(req, 'constructor')` returns the
member inherited from `Object.prototype`, not `undefined`. -/
theorem C8_counterexample_throw_and_inherited :
    (reqNoJar.cookies = none ∧
      cookies.get reqNoJar "token" = Except.error typeErrorUndefined ∧
      cookies.get reqNoJar "token" ≠ Except.ok CookieValue.undefined) ∧
    (reqAnonymous.cookies = some emptyJar ∧ emptyJar.own = [] ∧
      cookies.get reqAnonymous "constructor" =
        Except.ok (CookieValue.inherited "constructor") ∧
      cookies.get reqAnonymous "constructor" ≠ Except.ok CookieValue.undefined) := by
  have hread : cookies.get reqAnonymous "constructor" =
      Except.ok (CookieValue.inherited "constructor") := rfl
  refine ⟨⟨rfl, rfl, ?_⟩, ⟨rfl, rfl, hread, ?_⟩⟩
  · intro h
    cases h
  · intro h
    rw [hread] at h
    cases h

/-- C8, amended: when the cookie container `req.cookies` is present,
`cookies.get(req, name)` does not throw; it returns the value of the named
cookie when the container has one; when it has none, it returns `undefined`
if `name` is not a property the container inherits from its prototype, and
the inherited member if it is. -/
theorem C8_cookies_get_with_container (req : Request) (jar : CookieJar)
    (name : String) (hjar : req.cookies = some jar) :
    (∃ r, cookies.get req name = Except.ok r) ∧
    (∀ before v after, jar.own = before ++ (name, v) :: after →
        name ∉ before.map Prod.fst →
        cookies.get req name = Except.ok (CookieValue.str v)) ∧
    (name ∉ jar.own.map Prod.fst → name ∉ jar.proto.keys →
        cookies.get req name = Except.ok CookieValue.undefined) ∧
    (name ∉ jar.own.map Prod.fst → name ∈ jar.proto.keys →
        cookies.get req name = Except.ok (CookieValue.inherited name)) := by
  have hget : cookies.get req name = Except.ok (jar.read name) := by
    simp [cookies.get, hjar]
  have hskip : ∀ (before rest : List (String × String)),
      name ∉ before.map Prod.fst → ownCookie (before ++ rest) name = ownCookie rest name := by
    intro before
    induction before with
    | nil => intro rest _; rfl
    | cons kv tl ih =>
      intro rest hnot
      obtain ⟨k, w⟩ := kv
      simp only [List.map_cons, List.mem_cons, not_or] at hnot
      have hk : k ≠ name := fun h => hnot.1 h.symm
      simp only [List.cons_append, ownCookie, hk, if_false]
      exact ih rest hnot.2
  have habsent : name ∉ jar.own.map Prod.fst → ownCookie jar.own name = none := by
    intro hnot
    have h := hskip jar.own [] hnot
    rw [List.append_nil] at h
    rw [h]
    rfl
  refine ⟨⟨_, hget⟩, ?_, ?_, ?_⟩
  · intro before v after hsplit hnot
    have hown : ownCookie jar.own name = some v := by
      rw [hsplit, hskip before _ hnot]
      simp [ownCookie]
    rw [hget]
    simp [CookieJar.read, hown]
  · intro hnot hproto
    rw [hget]
    simp [CookieJar.read, habsent hnot, hproto]
  · intro hnot hproto
    rw [hget]
    simp [CookieJar.read, habsent hnot, hproto]

/-- Witness of C8 amended: the container `{session: 's1', token: 'abc'}` read
at `token`. -/
theorem C8_cookies_get_with_container_witness :
    sessionJar.own = [("session", "s1")] ++ ("token", "abc") :: [] ∧
    "token" ∉ ([("session", "s1")] : List (String × String)).map Prod.fst ∧
    cookies.get reqCookieAndHeader "token" = Except.ok (CookieValue.str "abc") :=
  ⟨rfl, by decide,
    (C8_cookies_get_with_container reqCookieAndHeader sessionJar "token" rfl).2.1
      [("session", "s1")] "abc" [] rfl (by decide)⟩

/-- C1, as stated, fails: a request without cookie container and without
`Authorization` header has no token cookie and no Bearer header, yet the gate
answers `{error: 'Invalid or expired token'}`, because `cookies.get` throws
inside the `try` block. -/
theorem C1_counterexample_missing_container :
    reqNoJar.hasTokenCookie = false ∧ reqNoJar.hasBearerHeader = false ∧
    authMiddleware sampleVerifier (Except.ok ()) reqNoJar =
      ⟨none, [invalidOrExpired], 0, [],
        [⟨"Authentication middleware error", typeErrorUndefined⟩]⟩ ∧
    (authMiddleware sampleVerifier (Except.ok ()) reqNoJar).responses ≠
      [authenticationRequired] := by
  refine ⟨rfl, rfl, rfl, ?_⟩
  decide

/-- C1, amended: for every request whose cookie container is present, that has
no token cookie and no `Authorization` value starting with `"Bearer "`, the
gate writes exactly one response, 401 `{error: 'Authentication required'}`,
does not call the verifier, does not call `next`, does not log and leaves
`req.user` unset. -/
theorem C1_missing_credential (verify : Verifier) (next : Except JsError Unit)
    (req : Request) (jar : CookieJar)
    (hjar : req.cookies = some jar)
    (hcookie : req.hasTokenCookie = false)
    (hheader : req.hasBearerHeader = false) :
    authMiddleware verify next req = ⟨none, [authenticationRequired], 0, [], []⟩ := by
  have hnone : ownCookie jar.own "token" = none := by
    simpa [Request.hasTokenCookie, hjar] using hcookie
  have hread : jar.read "token" = CookieValue.undefined := by
    rw [read_token, hnone]
  have hfind : findToken req = Except.ok CookieValue.undefined := by
    rw [findToken_of_jar req jar hjar, hread]
    cases hah : req.authHeader with
    | none => simp [truthy]
    | some h =>
      have hb : jsStartsWith h "Bearer " = false := by
        simpa [Request.hasBearerHeader, hah] using hheader
      simp [hb]
  exact authMiddleware_no_token verify next req _ hfind rfl

/-- Witness of C1 amended: the anonymous request with an empty jar. -/
theorem C1_missing_credential_witness :
    authMiddleware sampleVerifier (Except.ok ()) reqAnonymous =
      ⟨none, [authenticationRequired], 0, [], []⟩ :=
  C1_missing_credential sampleVerifier (Except.ok ()) reqAnonymous emptyJar rfl rfl rfl

/-- C2: whenever the gate finds a token and the verifier throws on it, with
whatever exception, the gate writes exactly the response 401
`{error: 'Invalid or expired token'}`, never calls `next` and leaves `req.user`
unset; a second run whose verifier fails with another exception writes the
same responses. -/
theorem C2_invalid_credential_uniform (verify : Verifier) (next : Except JsError Unit)
    (req : Request) (t : String) (e : JsError)
    (hfind : findToken req = Except.ok (CookieValue.str t)) (ht : t ≠ "")
    (hver : verify (CookieValue.str t) = Except.error e) :
    (authMiddleware verify next req).responses = [invalidOrExpired] ∧
    (authMiddleware verify next req).nextCalls = 0 ∧
    (authMiddleware verify next req).user = none ∧
    (authMiddleware verify next req).verifyCalls = [CookieValue.str t] ∧
    ∀ (verify2 : Verifier) (next2 : Except JsError Unit) (e2 : JsError),
      verify2 (CookieValue.str t) = Except.error e2 →
      (authMiddleware verify2 next2 req).responses =
        (authMiddleware verify next req).responses := by
  rw [authMiddleware_verify_error verify next req _ e hfind (str_truthy t ht) hver]
  refine ⟨rfl, rfl, rfl, rfl, ?_⟩
  intro verify2 next2 e2 hver2
  rw [authMiddleware_verify_error verify2 next2 req _ e2 hfind (str_truthy t ht) hver2]

/-- Witness of C2: the header `Bearer abc` against a verifier that reports
every token as expired. -/
theorem C2_invalid_credential_uniform_witness :
    (authMiddleware expiredVerifier (Except.ok ()) reqBearer).responses = [invalidOrExpired] ∧
    (authMiddleware expiredVerifier (Except.ok ()) reqBearer).nextCalls = 0 ∧
    (authMiddleware expiredVerifier (Except.ok ()) reqBearer).user = none ∧
    (authMiddleware expiredVerifier (Except.ok ()) reqBearer).verifyCalls =
      [CookieValue.str "abc"] ∧
    ∀ (verify2 : Verifier) (next2 : Except JsError Unit) (e2 : JsError),
      verify2 (CookieValue.str "abc") = Except.error e2 →
      (authMiddleware verify2 next2 reqBearer).responses =
        (authMiddleware expiredVerifier (Except.ok ()) reqBearer).responses :=
  C2_invalid_credential_uniform expiredVerifier (Except.ok ()) reqBearer "abc"
    ⟨"TokenExpiredError", "jwt expired"⟩ rfl (by decide) rfl

/-- C3: when the token cookie holds a token that the verifier accepts, then
whatever the `Authorization` values are, the verifier is called once, on the
cookie token only, `req.user` is the identity of the cookie token's claims and
`next` is called once. -/
theorem C3_cookie_takes_precedence (verify : Verifier) (next : Except JsError Unit)
    (req : Request) (jar : CookieJar) (t : String) (c : Obj)
    (hjar : req.cookies = some jar) (hcookie : ownCookie jar.own "token" = some t)
    (ht : t ≠ "") (hver : verify (CookieValue.str t) = Except.ok c) :
    (authMiddleware verify next req).verifyCalls = [CookieValue.str t] ∧
    (authMiddleware verify next req).user = some (identityOf c) ∧
    (authMiddleware verify next req).nextCalls = 1 := by
  have hread : jar.read "token" = CookieValue.str t := by
    rw [read_token, hcookie]
  have hfind : findToken req = Except.ok (CookieValue.str t) := by
    rw [findToken_of_jar req jar hjar, hread]
    simp [CookieValue.truthy, ht]
  rw [authMiddleware_verify_ok verify next req _ c hfind (str_truthy t ht) hver]
  cases next <;> exact ⟨rfl, rfl, rfl⟩

/-- Witness of C3: cookie `token=abc`, accepted, next to the header
`Bearer forged`, which the verifier would reject. -/
theorem C3_cookie_takes_precedence_witness :
    sampleVerifier (CookieValue.str "forged") =
      Except.error ⟨"JsonWebTokenError", "invalid signature"⟩ ∧
    (authMiddleware sampleVerifier (Except.ok ()) reqCookieAndHeader).verifyCalls =
      [CookieValue.str "abc"] ∧
    (authMiddleware sampleVerifier (Except.ok ()) reqCookieAndHeader).user =
      some [("id", JsVal.num 1), ("email", JsVal.str "a@x.com"), ("role", JsVal.str "user")] ∧
    (authMiddleware sampleVerifier (Except.ok ()) reqCookieAndHeader).nextCalls = 1 :=
  ⟨rfl, C3_cookie_takes_precedence sampleVerifier (Except.ok ()) reqCookieAndHeader
    sessionJar "abc" _ rfl rfl (by decide) rfl⟩

/-- C4, as stated, fails: the header token `abc` is accepted, `req.user` is
set and `next` is called, but `next` throws inside the `try` block and the gate
then writes a 401 response. -/
theorem C4_counterexample_response_after_next :
    findToken reqBearer = Except.ok (CookieValue.str "abc") ∧
    (∃ c, sampleVerifier (CookieValue.str "abc") = Except.ok c) ∧
    (authMiddleware sampleVerifier nextThrows reqBearer).user =
      some [("id", JsVal.num 1), ("email", JsVal.str "a@x.com"), ("role", JsVal.str "user")] ∧
    (authMiddleware sampleVerifier nextThrows reqBearer).nextCalls = 1 ∧
    (authMiddleware sampleVerifier nextThrows reqBearer).responses ≠ [] := by
  refine ⟨rfl, ⟨_, rfl⟩, rfl, rfl, ?_⟩
  decide

/-- C4, amended: when the gate finds a token that the verifier accepts with
claims `c`, `req.user` is the object with exactly the keys `id`, `email`,
`role`, bound to `c.id`, `c.email`, `c.role`, no other claim is copied, and
`next` is called once; when that call returns normally, no response is written
and nothing is logged. -/
theorem C4_identity_from_claims (verify : Verifier) (next : Except JsError Unit)
    (req : Request) (t : String) (c : Obj)
    (hfind : findToken req = Except.ok (CookieValue.str t)) (ht : t ≠ "")
    (hver : verify (CookieValue.str t) = Except.ok c) :
    (authMiddleware verify next req).user =
      some [("id", c.get "id"), ("email", c.get "email"), ("role", c.get "role")] ∧
    (∀ u, (authMiddleware verify next req).user = some u →
      u.keys = ["id", "email", "role"] ∧
      ∀ k, k ≠ "id" → k ≠ "email" → k ≠ "role" → u.get k = JsVal.undefined) ∧
    (authMiddleware verify next req).nextCalls = 1 ∧
    (next = Except.ok () →
      (authMiddleware verify next req).responses = [] ∧
      (authMiddleware verify next req).logs = []) := by
  rw [authMiddleware_verify_ok verify next req _ c hfind (str_truthy t ht) hver]
  refine ⟨?_, ?_, ?_, ?_⟩
  · cases next <;> rfl
  · intro u hu
    have hu2 : u = identityOf c := by
      cases next <;> simpa using hu.symm
    subst hu2
    refine ⟨rfl, ?_⟩
    intro k h1 h2 h3
    simp [identityOf, Obj.get, Ne.symm h1, Ne.symm h2, Ne.symm h3]
  · cases next <;> rfl
  · intro hnext
    subst hnext
    exact ⟨rfl, rfl⟩

/-- Witness of C4 amended: the header `Bearer abc`, whose claims also carry
`iat` and `exp`, with a downstream stage that returns normally. -/
theorem C4_identity_from_claims_witness :
    (authMiddleware sampleVerifier (Except.ok ()) reqBearer).user =
      some [("id", JsVal.num 1), ("email", JsVal.str "a@x.com"), ("role", JsVal.str "user")] ∧
    (authMiddleware sampleVerifier (Except.ok ()) reqBearer).nextCalls = 1 ∧
    (authMiddleware sampleVerifier (Except.ok ()) reqBearer).responses = [] :=
  have h := C4_identity_from_claims sampleVerifier (Except.ok ()) reqBearer "abc"
    [("id", JsVal.num 1), ("email", JsVal.str "a@x.com"),
      ("role", JsVal.str "user"), ("iat", JsVal.num 1000), ("exp", JsVal.num 2000)]
    rfl (by decide) rfl
  ⟨h.1, h.2.2.1, (h.2.2.2 rfl).1⟩

/-- C9, as stated, fails: the header value `bearer abc` starts with
`"Bearer "` up to letter case, but the gate finds no token in it: it answers
401 `{error: 'Authentication required'}` and never calls the verifier, while
for `Bearer abc` it passes `abc` to the verifier. -/
theorem C9_counterexample_lowercase_scheme :
    reqLowerBearer.hasTokenCookie = false ∧
    reqLowerBearer.authHeader = some "bearer abc" ∧
    schemeIsBearerIgnoringCase "bearer abc" = true ∧
    authMiddleware sampleVerifier (Except.ok ()) reqLowerBearer =
      ⟨none, [authenticationRequired], 0, [], []⟩ ∧
    (authMiddleware sampleVerifier (Except.ok ()) reqBearer).verifyCalls =
      [CookieValue.str "abc"] := by
  refine ⟨rfl, rfl, ?_, rfl, rfl⟩
  decide

/-- C9, amended: the scheme check is case-sensitive.  For every request whose
cookie container is present and holds no token cookie, and whose
`Authorization` value is `h`: if `h` starts with the literal `"Bearer "`, then
`h` is `"Bearer "` followed by `h.substring(7)`, and that substring, when not
empty, is the one token passed to the verifier; if `h` does not start with the
literal `"Bearer "`, the verifier is not called and the gate answers 401
`{error: 'Authentication required'}`. -/
theorem C9_scheme_check_case_sensitive (verify : Verifier) (next : Except JsError Unit)
    (req : Request) (jar : CookieJar) (h : String)
    (hjar : req.cookies = some jar) (hcookie : ownCookie jar.own "token" = none)
    (hhdr : req.authHeader = some h) :
    (jsStartsWith h "Bearer " = true →
      h = "Bearer " ++ jsSubstring h 7 ∧
      (jsSubstring h 7 ≠ "" →
        (authMiddleware verify next req).verifyCalls =
          [CookieValue.str (jsSubstring h 7)])) ∧
    (jsStartsWith h "Bearer " = false →
      authMiddleware verify next req = ⟨none, [authenticationRequired], 0, [], []⟩) := by
  have hread : jar.read "token" = CookieValue.undefined := by
    rw [read_token, hcookie]
  constructor
  · intro hb
    have hpre : "Bearer ".data <+: h.data := by
      simpa [jsStartsWith, List.isPrefixOf_iff_prefix] using hb
    have hsplit : h = "Bearer " ++ jsSubstring h 7 := by
      apply String.ext
      obtain ⟨rest, hrest⟩ := hpre
      simp only [String.data_append, jsSubstring]
      rw [← hrest]
      simp
    refine ⟨hsplit, ?_⟩
    intro hne
    have hh : h ≠ "" := by
      intro h0
      rw [h0] at hb
      simp [jsStartsWith] at hb
    have hfind : findToken req = Except.ok (CookieValue.str (jsSubstring h 7)) := by
      rw [findToken_of_jar req jar hjar, hread, hhdr]
      simp [CookieValue.truthy, truthy, hh, hb]
    cases hv : verify (CookieValue.str (jsSubstring h 7)) with
    | error e =>
      rw [authMiddleware_verify_error verify next req _ e hfind (str_truthy _ hne) hv]
    | ok c =>
      rw [authMiddleware_verify_ok verify next req _ c hfind (str_truthy _ hne) hv]
      cases next <;> rfl
  · intro hb
    have hfind : findToken req = Except.ok CookieValue.undefined := by
      rw [findToken_of_jar req jar hjar, hread, hhdr]
      simp [hb]
    exact authMiddleware_no_token verify next req _ hfind rfl

/-- Witness of C9 amended: the header `Bearer abc` on an empty cookie jar. -/
theorem C9_scheme_check_case_sensitive_witness :
    (jsStartsWith "Bearer abc" "Bearer " = true →
      "Bearer abc" = "Bearer " ++ jsSubstring "Bearer abc" 7 ∧
      (jsSubstring "Bearer abc" 7 ≠ "" →
        (authMiddleware sampleVerifier (Except.ok ()) reqBearer).verifyCalls =
          [CookieValue.str (jsSubstring "Bearer abc" 7)])) ∧
    (jsStartsWith "Bearer abc" "Bearer " = false →
      authMiddleware sampleVerifier (Except.ok ()) reqBearer =
        ⟨none, [authenticationRequired], 0, [], []⟩) :=
  C9_scheme_check_case_sensitive sampleVerifier (Except.ok ()) reqBearer emptyJar "Bearer abc"
    rfl rfl rfl

/-- C10, as stated, fails: with an accepted cookie token and a downstream stage
that throws, one run of the gate both calls `next` and writes a 401 response. -/
theorem C10_counterexample_next_throws :
    (authMiddleware sampleVerifier nextThrows reqCookieAndHeader).nextCalls = 1 ∧
    (authMiddleware sampleVerifier nextThrows reqCookieAndHeader).responses =
      [invalidOrExpired] := by
  exact ⟨rfl, rfl⟩

/-- C10, amended: for every request, verifier and downstream stage, one run of
the gate ends in one of three ways: `next` was called once, returned normally
and no response was written; or one 401 response was written and `next` was
not called; or `next` was called once, threw, and the gate then wrote the one
response 401 `{error: 'Invalid or expired token'}`. -/
theorem C10_pass_through_or_reject (verify : Verifier) (next : Except JsError Unit)
    (req : Request) :
    ((authMiddleware verify next req).nextCalls = 1 ∧
      (authMiddleware verify next req).responses = [] ∧ next = Except.ok ()) ∨
    ((authMiddleware verify next req).nextCalls = 0 ∧
      ((authMiddleware verify next req).responses = [authenticationRequired] ∨
       (authMiddleware verify next req).responses = [invalidOrExpired])) ∨
    ((authMiddleware verify next req).nextCalls = 1 ∧
      (authMiddleware verify next req).responses = [invalidOrExpired] ∧
      ∃ e, next = Except.error e) := by
  cases hfind : findToken req with
  | error e =>
    right; left
    simp [authMiddleware, tryBlock, hfind, GateState.init, invalidOrExpired]
  | ok tok =>
    cases htr : tok.truthy with
    | false =>
      right; left
      rw [authMiddleware_no_token verify next req tok hfind htr]
      exact ⟨rfl, Or.inl rfl⟩
    | true =>
      cases hv : verify tok with
      | error e =>
        right; left
        rw [authMiddleware_verify_error verify next req tok e hfind htr hv]
        exact ⟨rfl, Or.inr rfl⟩
      | ok c =>
        rw [authMiddleware_verify_ok verify next req tok c hfind htr hv]
        cases next with
        | ok u => left; exact ⟨rfl, rfl, rfl⟩
        | error e => right; right; exact ⟨rfl, rfl, e, rfl⟩

/-! ## Properties of the user service -/

/-- Reading a property after a property write. -/
theorem Obj.get_set (o : Obj) (k k2 : String) (v : JsVal) :
    (o.set k v).get k2 = if k2 = k then v else o.get k2 := by
  induction o with
  | nil =>
    by_cases h : k2 = k
    · simp [Obj.set, Obj.get, h]
    · have h2 : ¬ k = k2 := fun e => h e.symm
      simp [Obj.set, Obj.get, h, h2]
  | cons kv tl ih =>
    obtain ⟨a, w⟩ := kv
    by_cases hak : a = k
    · subst hak
      by_cases h2 : a = k2
      · subst h2
        simp [Obj.set, Obj.get]
      · have h3 : ¬ k2 = a := fun e => h2 e.symm
        simp [Obj.set, Obj.get, h2, h3]
    · by_cases h2 : a = k2
      · subst h2
        simp [Obj.set, Obj.get, hak]
      · simp [Obj.set, Obj.get, hak, h2, ih]

/-- The write set, by which of the three allowed properties are defined. -/
theorem allowedUpdates_cases (u : Obj) (now : JsVal) :
    allowedUpdates u now =
      (if u.get "name" ≠ JsVal.undefined then [("name", u.get "name")] else []) ++
      (if u.get "email" ≠ JsVal.undefined then [("email", u.get "email")] else []) ++
      (if u.get "role" ≠ JsVal.undefined then [("role", u.get "role")] else []) ++
      [("updated_at", now)] := by
  unfold allowedUpdates
  by_cases h1 : u.get "name" = JsVal.undefined <;>
  by_cases h2 : u.get "email" = JsVal.undefined <;>
  by_cases h3 : u.get "role" = JsVal.undefined <;>
  simp [h1, h2, h3, Obj.set]

/-- The value of every column of a row after the write set was applied. -/
theorem applySet_get (row : Obj) (u : Obj) (now : JsVal) (k : String) :
    (applySet row (allowedUpdates u now)).get k =
      if k = "updated_at" then now
      else if (k = "name" ∨ k = "email" ∨ k = "role") ∧ u.get k ≠ JsVal.undefined then u.get k
      else row.get k := by
  rw [allowedUpdates_cases]
  by_cases h1 : u.get "name" = JsVal.undefined <;>
  by_cases h2 : u.get "email" = JsVal.undefined <;>
  by_cases h3 : u.get "role" = JsVal.undefined <;>
  simp only [h1, h2, h3, applySet, List.foldl, ne_eq, not_true_eq_false, not_false_eq_true, if_true, if_false, List.nil_append, List.cons_append, Obj.get_set] <;>
  by_cases k1 : k = "updated_at" <;> by_cases k2 : k = "name" <;> by_cases k3 : k = "email" <;> by_cases k4 : k = "role" <;>
  simp_all

/-- With `id` a key, the select by `id` of a stored row yields that row alone. -/
theorem selectWhereId_of_unique (db : Table) (i : Int) (r : Obj)
    (hmem : r ∈ db) (hid : matchesId i r = true) (huniq : uniqueIds db) :
    db.filter (matchesId i) = [r] := by
  induction db with
  | nil => simp at hmem
  | cons a tl ih =>
    have hp := List.pairwise_cons.mp huniq
    have hrid : r.get "id" = JsVal.num i := by simpa [matchesId] using hid
    rcases List.mem_cons.mp hmem with hra | hrt
    · subst hra
      have htl : tl.filter (matchesId i) = [] := by
        apply List.filter_eq_nil_iff.mpr
        intro b hb hmb
        have hbid : b.get "id" = JsVal.num i := by simpa [matchesId] using hmb
        exact hp.1 b hb (hrid.trans hbid.symm)
      simp [List.filter_cons, hid, htl]
    · have ha : matchesId i a = false := by
        have hne := hp.1 r hrt
        simp only [matchesId, decide_eq_false_iff_not]
        intro haid
        exact hne (haid.trans hrid.symm)
      simp only [List.filter_cons, ha]
      exact ih hrt hp.2

/-- When no row has the `id`, the select is empty and the delete removes nothing. -/
theorem selectWhereId_of_absent (db : Table) (i : Int)
    (habs : ∀ r ∈ db, matchesId i r = false) :
    db.filter (matchesId i) = [] ∧ (db.filter fun row => !matchesId i row) = db := by
  constructor
  · apply List.filter_eq_nil_iff.mpr
    intro b hb hmb
    rw [habs b hb] at hmb
    cases hmb
  · apply List.filter_eq_self.mpr
    intro b hb
    simp [habs b hb]

/-- The table and the result of `updateUser` when the select yields one row. -/
theorem updateUser_existing (now : JsVal) (db : Table) (i : Int) (u r : Obj)
    (hsel : db.filter (matchesId i) = [r]) :
    (updateUser now db i u).db =
      db.map (fun row => if matchesId i row then applySet row (allowedUpdates u now) else row) ∧
    (updateUser now db i u).result =
      Except.ok (some (userSelection (applySet r (allowedUpdates u now)))) := by
  simp [updateUser, Table.selectWhereId, Table.updateWhereId, hsel]

/-- C5: for every stored record `r` with id `i` (ids being unique) and every
payload `u`, `updateUser(i, u)` applies the write set `allowedUpdates` to the
rows with that id and returns the projection of the updated row; the write
set holds exactly the entries `k ↦ u[k]` for `k` among `name`, `email`, `role`
with `u[k]` not `undefined`, and `updated_at ↦ now`, so that every other column
of a row keeps its value.  With the empty payload the call succeeds and only
`updated_at` changes; with `{name: x, hacked: y}` the name becomes `x` and the
column `hacked` keeps the value it had. -/
theorem C5_update_write_set (now : JsVal) (db : Table) (i : Int) (u r : Obj)
    (hmem : r ∈ db) (hid : matchesId i r = true) (huniq : uniqueIds db) :
    (updateUser now db i u).db =
      db.map (fun row => if matchesId i row then applySet row (allowedUpdates u now) else row) ∧
    (updateUser now db i u).result =
      Except.ok (some (userSelection (applySet r (allowedUpdates u now)))) ∧
    (∀ k v, (k, v) ∈ allowedUpdates u now ↔
      ((k = "name" ∨ k = "email" ∨ k = "role") ∧ u.get k ≠ JsVal.undefined ∧ v = u.get k) ∨
      (k = "updated_at" ∧ v = now)) ∧
    (∀ row k, (applySet row (allowedUpdates u now)).get k =
      if k = "updated_at" then now
      else if (k = "name" ∨ k = "email" ∨ k = "role") ∧ u.get k ≠ JsVal.undefined then u.get k
      else row.get k) ∧
    ((updateUser now db i []).result =
        Except.ok (some (userSelection (r.set "updated_at" now))) ∧
      (updateUser now db i []).db =
        db.map (fun row => if matchesId i row then row.set "updated_at" now else row) ∧
      (∀ k, k ≠ "updated_at" → (r.set "updated_at" now).get k = r.get k) ∧
      (r.set "updated_at" now).get "updated_at" = now) ∧
    (∀ x y : String,
      (updateUser now db i [("name", JsVal.str x), ("hacked", JsVal.str y)]).db =
        db.map (fun row => if matchesId i row
          then (row.set "name" (JsVal.str x)).set "updated_at" now else row) ∧
      ((r.set "name" (JsVal.str x)).set "updated_at" now).get "name" = JsVal.str x ∧
      ((r.set "name" (JsVal.str x)).set "updated_at" now).get "hacked" = r.get "hacked") := by
  have hsel := selectWhereId_of_unique db i r hmem hid huniq
  refine ⟨(updateUser_existing now db i u r hsel).1, (updateUser_existing now db i u r hsel).2,
    ?_, fun row k => applySet_get row u now k, ?_, ?_⟩
  · intro k v
    rw [allowedUpdates_cases]
    by_cases h1 : u.get "name" = JsVal.undefined <;>
    by_cases h2 : u.get "email" = JsVal.undefined <;>
    by_cases h3 : u.get "role" = JsVal.undefined <;>
    simp only [h1, h2, h3, ne_eq, not_true_eq_false, not_false_eq_true, if_true, if_false,
      List.nil_append, List.cons_append, List.mem_cons, List.mem_singleton, Prod.mk.injEq,
      List.not_mem_nil, or_false] <;>
    constructor <;> intro h <;> aesop
  · have hempty : allowedUpdates [] now = [("updated_at", now)] := by
      simp [allowedUpdates, Obj.get, Obj.set]
    have h := updateUser_existing now db i [] r hsel
    rw [hempty] at h
    refine ⟨h.2, h.1, ?_, ?_⟩
    · intro k hk
      simp [Obj.get_set, hk]
    · simp [Obj.get_set]
  · intro x y
    have hxy : allowedUpdates [("name", JsVal.str x), ("hacked", JsVal.str y)] now =
        [("name", JsVal.str x), ("updated_at", now)] := by
      simp [allowedUpdates, Obj.get, Obj.set]
    have h := updateUser_existing now db i [("name", JsVal.str x), ("hacked", JsVal.str y)] r hsel
    rw [hxy] at h
    refine ⟨h.1, ?_, ?_⟩
    · simp [Obj.get_set]
    · simp [Obj.get_set]

/-- Witness of C5: user 1 of the sample table updated with
`{name: "X", hacked: "Y"}` at time 99. -/
theorem C5_update_write_set_witness :
    sampleRow ∈ sampleDb ∧ matchesId 1 sampleRow = true ∧ uniqueIds sampleDb ∧
    (updateUser (JsVal.num 99) sampleDb 1 samplePayload).result =
      Except.ok (some [("id", JsVal.num 1), ("email", JsVal.str "ann@x.com"),
        ("name", JsVal.str "X"), ("role", JsVal.str "user"),
        ("created_at", JsVal.num 10), ("updated_at", JsVal.num 99)]) :=
  ⟨by decide, by decide, by unfold uniqueIds; decide,
    (C5_update_write_set (JsVal.num 99) sampleDb 1 samplePayload sampleRow
      (by decide) (by decide) (by unfold uniqueIds; decide)).2.1.trans rfl⟩

/-- C6: when no row of the store has the id, `updateUser`, with any payload,
and `deleteUser` both throw `Error('User not found')` instead of returning, and
the table after the call is the table before it. -/
theorem C6_not_found_store_unchanged (db : Table) (i : Int) (now : JsVal) (u : Obj)
    (habs : ∀ r ∈ db, matchesId i r = false) :
    (updateUser now db i u).result = Except.error userNotFound ∧
    (updateUser now db i u).db = db ∧
    (deleteUser db i).result = Except.error userNotFound ∧
    (deleteUser db i).db = db ∧
    userNotFound.message = "User not found" := by
  obtain ⟨h1, h2⟩ := selectWhereId_of_absent db i habs
  simp [updateUser, deleteUser, Table.selectWhereId, Table.deleteWhereId, h1, h2, userNotFound]

/-- Witness of C6: id 3 on the sample table. -/
theorem C6_not_found_store_unchanged_witness :
    (updateUser (JsVal.num 99) sampleDb 3 samplePayload).result = Except.error userNotFound ∧
    (updateUser (JsVal.num 99) sampleDb 3 samplePayload).db = sampleDb ∧
    (deleteUser sampleDb 3).result = Except.error userNotFound ∧
    (deleteUser sampleDb 3).db = sampleDb ∧
    userNotFound.message = "User not found" :=
  C6_not_found_store_unchanged sampleDb 3 (JsVal.num 99) samplePayload (by decide)

/-- C7: for every store with unique ids that holds a record `r` with id `i`,
`deleteUser(i)` returns the projection of `r` to `id`, `email`, `name`, `role`,
`created_at`, `updated_at`; the table afterwards consists of exactly the rows
with another id, unchanged and in their order; and `getUserById(i)` on that
table returns `null`, not a record and not an exception. -/
theorem C7_delete_then_absent (db : Table) (i : Int) (r : Obj)
    (hmem : r ∈ db) (hid : matchesId i r = true) (huniq : uniqueIds db) :
    (deleteUser db i).result = Except.ok (userSelection r) ∧
    (deleteUser db i).db = db.filter (fun row => !matchesId i row) ∧
    (∀ row, row ∈ (deleteUser db i).db ↔ row ∈ db ∧ matchesId i row = false) ∧
    (getUserById (deleteUser db i).db i).result = Except.ok none := by
  have hsel := selectWhereId_of_unique db i r hmem hid huniq
  have hdb : (deleteUser db i).db = db.filter (fun row => !matchesId i row) := by
    simp [deleteUser, Table.deleteWhereId, hsel]
  refine ⟨?_, hdb, ?_, ?_⟩
  · simp [deleteUser, Table.deleteWhereId, hsel]
  · intro row
    rw [hdb]
    simp [List.mem_filter]
  · rw [hdb]
    have : (db.filter (fun row => !matchesId i row)).filter (matchesId i) = [] := by
      apply List.filter_eq_nil_iff.mpr
      intro b hb hmb
      have := (List.mem_filter.mp hb).2
      simp [hmb] at this
    simp [getUserById, Table.selectWhereId, this]

/-- Witness of C7: user 1 deleted from the sample table. -/
theorem C7_delete_then_absent_witness :
    (deleteUser sampleDb 1).result =
      Except.ok [("id", JsVal.num 1), ("email", JsVal.str "ann@x.com"),
        ("name", JsVal.str "Ann"), ("role", JsVal.str "user"),
        ("created_at", JsVal.num 10), ("updated_at", JsVal.num 10)] ∧
    (getUserById (deleteUser sampleDb 1).db 1).result = Except.ok none :=
  have h := C7_delete_then_absent sampleDb 1 sampleRow (by decide) (by decide)
    (by unfold uniqueIds; decide)
  ⟨h.1.trans rfl, h.2.2.2⟩

end Acquisitions
